import Mathlib

/-!
Verification of the crypto-front repository's cache + pagination/list-state
subsystem against its specification.

The definitions below are a shallow embedding of the TypeScript source:
* `src/lib/types.ts`            → `CryptoAsset`
* `src/lib/cache.ts`            → `CacheEntry`, `Cache`, `mapGet`, `mapSet`,
                                  `mapDelete`, `firstKey`, `isValidEntry`, `isValid`
* `src/app/api/assets/route.ts` → `clampPage`, `clampPerPage`, `cacheKey`,
                                  `fetchAndStore`, `listAssetsGET`
* `src/app/api/favorites/route.ts` → `addFavorite`, `removeFavorite`
* `src/app/api/assets/[id]/route.ts` → `homepageField`, `blockchainSiteField`
* `src/app/page.tsx`            → `applyFilter`, `loadMoreAssets`

JavaScript numbers are modelled as `Rat` (for market data) and `Int`
(for pagination integers); `parseInt` results are `Option Int`, with `none`
standing for `NaN`.  JavaScript `Map` is modelled as an insertion-ordered
association list, matching `Map`'s iteration-order guarantees: `set` of an
existing key updates in place, `set` of a new key appends, `keys().next()`
yields the head.  The external market-data provider is an oracle
`Int → Int → Option (List CryptoAsset)`, `none` standing for a non-ok HTTP
response or JSON parse failure (both throw in the source and reach the catch
block before any cache write).  Wall-clock time is an explicit `now : Nat`
parameter (milliseconds), replacing `Date.now()`.
-/

set_option autoImplicit false

namespace CryptoFront

/-- `CryptoAsset` from `src/lib/types.ts`: the list-form asset shape returned
by the provider's markets endpoint. -/
structure CryptoAsset where
  id : String
  name : String
  symbol : String
  image : String
  current_price : Rat
  price_change_percentage_24h : Rat
  market_cap : Option Rat := none
  total_volume : Option Rat := none
  deriving DecidableEq, Repr

/-- `CacheEntry` from `src/lib/cache.ts`. -/
structure CacheEntry where
  data : List CryptoAsset
  timestamp : Nat
  deriving DecidableEq, Repr

/-- The backing `Map<string, CacheEntry>` of `ApiCache`, as an
insertion-ordered association list. -/
abbrev Cache := List (String × CacheEntry)

/-- `ApiCache.get`: `Map.prototype.get`. -/
def mapGet (c : Cache) (k : String) : Option CacheEntry :=
  (c.find? (fun p => p.1 == k)).map (fun p => p.2)

/-- `ApiCache.set`: `Map.prototype.set` — update in place when the key is
present, append otherwise. -/
def mapSet (c : Cache) (k : String) (e : CacheEntry) : Cache :=
  if c.any (fun p => p.1 == k) then
    c.map (fun p => if p.1 == k then (k, e) else p)
  else
    c ++ [(k, e)]

/-- `ApiCache.delete`: `Map.prototype.delete`. -/
def mapDelete (c : Cache) (k : String) : Cache :=
  c.filter (fun p => p.1 != k)

/-- `cache.keys().next().value`: the first key in insertion order. -/
def firstKey (c : Cache) : Option String :=
  c.head?.map (fun p => p.1)

/-- The `assetsCache` singleton's freshness window: 5 minutes in ms
(`new ApiCache(5 * 60 * 1000)`). -/
def cacheDuration : Nat := 5 * 60 * 1000

/-- Age test of `ApiCache.isValid` on a present entry:
`Date.now() - entry.timestamp < this.cacheDuration`. -/
def isValidEntry (now : Nat) (e : CacheEntry) : Bool :=
  now - e.timestamp < cacheDuration

/-- `ApiCache.isValid`: false for an absent entry, otherwise the age test. -/
def isValid (now : Nat) (entry : Option CacheEntry) : Bool :=
  match entry with
  | none => false
  | some e => isValidEntry now e

/-- Page clamping in `GET /api/assets`:
`Number.isNaN(parsedPage) ? 1 : Math.max(1, parsedPage)`. -/
def clampPage (parsedPage : Option Int) : Int :=
  match parsedPage with
  | none => 1
  | some p => max 1 p

/-- Per-page clamping in `GET /api/assets`:
`Number.isNaN(parsedPerPage) ? 10 : Math.min(250, Math.max(1, parsedPerPage))`. -/
def clampPerPage (parsedPerPage : Option Int) : Int :=
  match parsedPerPage with
  | none => 10
  | some p => min 250 (max 1 p)

/-- The composite cache key of `GET /api/assets`: the template string
built from page and perPage with a dash in between. -/
def cacheKey (page perPage : Int) : String :=
  toString page ++ "-" ++ toString perPage

/-- The JSON body `{ assets, page, perPage, hasMore }` returned by
`GET /api/assets` on success. -/
structure ListResponse where
  assets : List CryptoAsset
  page : Int
  perPage : Int
  hasMore : Bool
  deriving DecidableEq, Repr

/-- One completed `GET /api/assets` request: the response (`none` for the
500-error path), the cache afterwards, and whether the provider was called. -/
structure StepResult where
  response : Option ListResponse
  cache : Cache
  fetched : Bool
  deriving DecidableEq, Repr

/-- The miss path of `GET /api/assets`: call the provider; on failure throw
to the catch block (cache untouched); on success store the page under the
key, then evict the oldest key if the map now exceeds 10 entries, and
answer with `hasMore` derived as `data.length === perPage`. -/
def fetchAndStore (provider : Int → Int → Option (List CryptoAsset)) (now : Nat)
    (c : Cache) (page perPage : Int) (key : String) : StepResult :=
  match provider page perPage with
  | none => ⟨none, c, true⟩
  | some data =>
      let c1 := mapSet c key ⟨data, now⟩
      let c2 :=
        if 10 < c1.length then
          match firstKey c1 with
          | some k => mapDelete c1 k
          | none => c1
        else c1
      ⟨some ⟨data, page, perPage, (data.length : Int) == perPage⟩, c2, true⟩

/-- `GET /api/assets` (`src/app/api/assets/route.ts`): clamp the raw
pagination input, look the key up in `assetsCache`, serve a valid entry
verbatim with no provider call, otherwise take the miss path. -/
def listAssetsGET (provider : Int → Int → Option (List CryptoAsset)) (now : Nat)
    (c : Cache) (pageRaw perPageRaw : Option Int) : StepResult :=
  let page := clampPage pageRaw
  let perPage := clampPerPage perPageRaw
  let key := cacheKey page perPage
  match mapGet c key with
  | some e =>
      if isValidEntry now e then
        ⟨some ⟨e.data, page, perPage, (e.data.length : Int) == perPage⟩, c, false⟩
      else
        fetchAndStore provider now c page perPage key
  | none => fetchAndStore provider now c page perPage key

/-- One raw request to `GET /api/assets`: arrival time and raw parsed
pagination parameters. -/
structure AssetsRequest where
  now : Nat
  pageRaw : Option Int
  perPageRaw : Option Int

/-- A sequence of completed `GET /api/assets` requests threaded through the
shared `assetsCache`. -/
def runRequests (provider : Int → Int → Option (List CryptoAsset))
    (reqs : List AssetsRequest) (c : Cache) : Cache :=
  match reqs with
  | [] => c
  | r :: rest =>
      runRequests provider rest (listAssetsGET provider r.now c r.pageRaw r.perPageRaw).cache

/-- Outcome of `POST /api/favorites`: 400 validation failure, 201 fresh
insert, 200 duplicate (PostgreSQL unique violation 23505), or the generic
500 path. -/
inductive AddFavoriteResult
  | badRequest
  | created
  | alreadyFavorited
  | storeError
  deriving DecidableEq, Repr

/-- The persistence service's `insert` on the `favorites` table, whose
`asset_id` column carries a SQL `unique` constraint (`supabase-setup.sql`):
inserting an already-present id signals a uniqueness violation (`none`). -/
def insertFavorite (table : List String) (assetId : String) : Option (List String) :=
  if table.contains assetId then none else some (table ++ [assetId])

/-- `POST /api/favorites` (`src/app/api/favorites/route.ts`): reject a
falsy `asset_id` with 400; map a uniqueness violation (code 23505) to the
200 "already in favorites" outcome; otherwise 201 with the inserted row.
The table is modelled as the list of stored `asset_id`s. -/
def addFavorite (table : List String) (assetId : Option String) :
    AddFavoriteResult × List String :=
  match assetId with
  | none => (.badRequest, table)
  | some s =>
      if s = "" then (.badRequest, table)
      else
        match insertFavorite table s with
        | none => (.alreadyFavorited, table)
        | some t => (.created, t)

/-- Outcome of `DELETE /api/favorites`. -/
inductive RemoveFavoriteResult
  | badRequest
  | removed
  | storeError
  deriving DecidableEq, Repr

/-- `DELETE /api/favorites` (`src/app/api/favorites/route.ts`): reject a
falsy `asset_id` with 400 before any store call; otherwise delete every row
matching the id and answer success unconditionally.  The final `Bool`
records whether the persistence service was called. -/
def removeFavorite (table : List String) (assetId : Option String) :
    RemoveFavoriteResult × List String × Bool :=
  match assetId with
  | none => (.badRequest, table, false)
  | some s =>
      if s = "" then (.badRequest, table, false)
      else (.removed, table.filter (fun x => x != s), true)

/-- The `links` object of the provider's coin-detail payload, restricted to
the two arrays the transform reads; `none` models an absent field cut off
by optional chaining. -/
structure ProviderLinks where
  homepage : Option (List String)
  blockchain_site : Option (List String)
  deriving DecidableEq, Repr

/-- JavaScript `x || d` on an optionally-absent string: `none` (undefined)
and the empty string are falsy. -/
def jsStrOr (x : Option String) (d : String) : String :=
  match x with
  | none => d
  | some s => if s = "" then d else s

/-- The `homepage` field of the detail transform
(`src/app/api/assets/[id]/route.ts`): `data.links?.homepage?.[0] || ''`. -/
def homepageField (links : Option ProviderLinks) : String :=
  jsStrOr ((links.bind (fun l => l.homepage)).bind List.head?) ""

/-- The `blockchain_site` field of the detail transform:
`data.links?.blockchain_site?.filter((site) => site)?.[0] || ''`. -/
def blockchainSiteField (links : Option ProviderLinks) : String :=
  jsStrOr (((links.bind (fun l => l.blockchain_site)).map
    (List.filter (fun s => s != ""))).bind List.head?) ""

/-- Modelled from the spec: "taking first non-empty entry from link arrays"
(§4.2 step 4) — the first non-empty entry of a link array, empty when the
array is absent or has no non-empty entry.  Stated for comparison with the
transform's actual field selectors. -/
def specFirstNonEmpty (arr : Option (List String)) : String :=
  match arr with
  | none => ""
  | some l =>
      match l.find? (fun s => s != "") with
      | none => ""
      | some s => s

/-- The gain/loss filter selector of `src/app/page.tsx`. -/
inductive FilterOption
  | all
  | gainers
  | losers
  deriving DecidableEq, Repr

/-- The gainers/losers stage of `filteredAssets` in `src/app/page.tsx`:
gainers keep `price_change_percentage_24h >= 0`, losers keep `< 0`,
`all` keeps everything. -/
def applyFilter (f : FilterOption) (l : List CryptoAsset) : List CryptoAsset :=
  match f with
  | .all => l
  | .gainers => l.filter (fun a => decide (0 ≤ a.price_change_percentage_24h))
  | .losers => l.filter (fun a => decide (a.price_change_percentage_24h < 0))

/-- The slice of the Home component's state touched by `loadMoreAssets`. -/
structure ListViewState where
  assets : List CryptoAsset
  page : Int
  hasMore : Bool
  loadingMore : Bool
  deriving DecidableEq, Repr

/-- How one `/api/assets` fetch inside `loadMoreAssets` resolves: HTTP 429,
any other non-ok response or thrown error, an ok response whose JSON body
carries an `error` field, or an ok body with assets and a `hasMore` flag
(`none` models an absent `hasMore`). -/
inductive FetchOutcome
  | http429
  | httpFailure
  | apiError
  | ok (assets : List CryptoAsset) (hasMore : Option Bool)
  deriving DecidableEq, Repr

/-- `loadMoreAssets` of `src/app/page.tsx` as a state transition: bail out
unchanged when `loadingMore || !hasMore`; on 429 / other failure / API
error body, change nothing but the `finally`-reset `loadingMore`; on a
non-empty page, append it, advance the cursor, and take `hasMore` from the
response (`?? false`); on an empty page, clear `hasMore`. -/
def loadMoreAssets (s : ListViewState) (outcome : FetchOutcome) : ListViewState :=
  if s.loadingMore || !s.hasMore then s
  else
    match outcome with
    | .http429 => { s with loadingMore := false }
    | .httpFailure => { s with loadingMore := false }
    | .apiError => { s with loadingMore := false }
    | .ok newAssets hm =>
        if 0 < newAssets.length then
          { assets := s.assets ++ newAssets
            page := s.page + 1
            hasMore := hm.getD false
            loadingMore := false }
        else
          { s with hasMore := false, loadingMore := false }

/-! ## Sample data for concrete evaluations -/

/-- A concrete asset used in concrete runs. -/
def btc : CryptoAsset :=
  { id := "bitcoin", name := "Bitcoin", symbol := "btc", image := "btc.png"
    current_price := 45000, price_change_percentage_24h := 2 }

/-- A second concrete asset. -/
def eth : CryptoAsset :=
  { id := "ethereum", name := "Ethereum", symbol := "eth", image := "eth.png"
    current_price := 3000, price_change_percentage_24h := -1 }

/-- An asset whose 24h change is exactly zero. -/
def usdt : CryptoAsset :=
  { id := "tether", name := "Tether", symbol := "usdt", image := "usdt.png"
    current_price := 1, price_change_percentage_24h := 0 }

/-! ## Shape of every successful `GET /api/assets` response -/

/-- Both success branches of `listAssetsGET` build the response from the
clamped pagination values, and derive `hasMore` by comparing the returned
count with the clamped per-page value. -/
theorem listAssetsGET_response_eq
    (provider : Int → Int → Option (List CryptoAsset)) (now : Nat) (c : Cache)
    (pr qr : Option Int) (r : ListResponse)
    (hr : (listAssetsGET provider now c pr qr).response = some r) :
    r.page = clampPage pr ∧ r.perPage = clampPerPage qr ∧
    r.hasMore = ((r.assets.length : Int) == clampPerPage qr) := by
  simp only [listAssetsGET, fetchAndStore] at hr
  split at hr
  · split at hr
    · simp only [Option.some.injEq] at hr
      subst hr
      exact ⟨rfl, rfl, rfl⟩
    · split at hr
      · simp at hr
      · simp only [Option.some.injEq] at hr
        subst hr
        exact ⟨rfl, rfl, rfl⟩
  · split at hr
    · simp at hr
    · simp only [Option.some.injEq] at hr
      subst hr
      exact ⟨rfl, rfl, rfl⟩

/-- C1, counterexample: the claim says a zero or negative raw `per_page`
falls back to the default 10, but the code clamps it to 1
(`Math.min(250, Math.max(1, 0)) = 1`): the request `page=1&per_page=0`
answers with `perPage = 1`, not 10. -/
theorem clamping_zero_perPage_not_default :
    clampPerPage (some 0) = 1 ∧
    (listAssetsGET (fun _ _ => some []) 0 [] (some 1) (some 0)).response =
      some ⟨[], 1, 1, false⟩ ∧
    clampPerPage (some 0) ≠ 10 := by
  refine ⟨by decide, by decide, by decide⟩

/-- C1, amended: every successful `listAssets` response echoes the clamped
input; non-numeric input yields the defaults `page = 1` and `perPage = 10`;
zero or negative input clamps both `page` and `perPage` to 1 (for `perPage`
this is 1, not the default 10); `perPage` above 250 clamps to 250; valid
`page ≥ 1` and `perPage ∈ [1,250]` are echoed unchanged. -/
theorem listAssets_pagination_clamping
    (provider : Int → Int → Option (List CryptoAsset)) (now : Nat) (c : Cache)
    (pr qr : Option Int) (r : ListResponse)
    (hr : (listAssetsGET provider now c pr qr).response = some r) :
    r.page = clampPage pr ∧ r.perPage = clampPerPage qr ∧
    clampPage none = 1 ∧ clampPerPage none = 10 ∧
    (∀ p : Int, p ≤ 0 → clampPage (some p) = 1) ∧
    (∀ p : Int, p ≤ 0 → clampPerPage (some p) = 1) ∧
    (∀ p : Int, 1 ≤ p → clampPage (some p) = p) ∧
    (∀ p : Int, 1 ≤ p → p ≤ 250 → clampPerPage (some p) = p) ∧
    (∀ p : Int, 250 ≤ p → clampPerPage (some p) = 250) := by
  obtain ⟨h1, h2, -⟩ := listAssetsGET_response_eq provider now c pr qr r hr
  refine ⟨h1, h2, rfl, rfl, ?_, ?_, ?_, ?_, ?_⟩ <;>
    intro p <;> simp [clampPage, clampPerPage] <;> omega

/-- Concrete instantiation of the amended C1 theorem on the request
`page=1&per_page=0` against a provider that returns an empty page. -/
theorem listAssets_pagination_clamping_witness :
    clampPage (some (-3)) = 1 ∧ clampPerPage (some 0) = 1 ∧
    clampPerPage (some 300) = 250 := by
  have h := listAssets_pagination_clamping (fun _ _ => some []) 0 [] (some 1)
    (some 0) ⟨[], 1, 1, false⟩ (by decide)
  exact ⟨h.2.2.2.2.1 (-3) (by decide), h.2.2.2.2.2.1 0 (by decide),
    h.2.2.2.2.2.2.2.2 300 (by decide)⟩

/-- A concrete successful response: provider returns 2 assets for a
clamped `perPage` of 2. -/
def twoAssetResponse : ListResponse := ⟨[btc, eth], 1, 2, true⟩

/-- C3: every `listAssets` response — cache hit or fresh fetch — has
`hasMore = true` exactly when the number of returned assets equals the
requested (clamped) `perPage`. -/
theorem listAssets_hasMore_iff
    (provider : Int → Int → Option (List CryptoAsset)) (now : Nat) (c : Cache)
    (pr qr : Option Int) (r : ListResponse)
    (hr : (listAssetsGET provider now c pr qr).response = some r) :
    r.perPage = clampPerPage qr ∧
    (r.hasMore = true ↔ (r.assets.length : Int) = r.perPage) := by
  obtain ⟨-, h2, h3⟩ := listAssetsGET_response_eq provider now c pr qr r hr
  refine ⟨h2, ?_⟩
  rw [h3, h2, beq_iff_eq]

/-- Concrete instantiation of C3: a fresh fetch returning `[btc, eth]` for
`per_page=2` reports `hasMore = true`. -/
theorem listAssets_hasMore_iff_witness :
    twoAssetResponse.perPage = clampPerPage (some 2) ∧
    (twoAssetResponse.hasMore = true ↔
      (twoAssetResponse.assets.length : Int) = twoAssetResponse.perPage) :=
  listAssets_hasMore_iff (fun _ _ => some [btc, eth]) 0 [] none (some 2)
    twoAssetResponse (by decide)

/-! ## Favorites -/

/-- C5: adding the same non-empty `assetId` twice in sequence to a table
not yet containing it yields a 201 fresh insert and then the 200
"already in favorites" outcome — both non-error, and distinguishable from
each other — and the table afterwards holds exactly one row for the id. -/
theorem addFavorite_twice_idempotent (table : List String) (aid : String)
    (hne : aid ≠ "") (h0 : table.count aid = 0) :
    (addFavorite table (some aid)).1 = .created ∧
    (addFavorite (addFavorite table (some aid)).2 (some aid)).1 = .alreadyFavorited ∧
    (addFavorite (addFavorite table (some aid)).2 (some aid)).2.count aid = 1 := by
  have hmem : aid ∉ table := List.count_eq_zero.mp h0
  have h1 : addFavorite table (some aid) = (.created, table ++ [aid]) := by
    simp [addFavorite, insertFavorite, hne, hmem]
  have h2 : addFavorite (table ++ [aid]) (some aid) =
      (.alreadyFavorited, table ++ [aid]) := by
    simp [addFavorite, insertFavorite, hne]
  refine ⟨?_, ?_, ?_⟩ <;> simp [h1, h2, List.count_append, h0]

/-- Concrete instantiation of C5: `addFavorite "bitcoin"` twice from an
empty table. -/
theorem addFavorite_twice_idempotent_witness :
    (addFavorite [] (some "bitcoin")).1 = .created ∧
    (addFavorite (addFavorite [] (some "bitcoin")).2 (some "bitcoin")).1 =
      .alreadyFavorited ∧
    (addFavorite (addFavorite [] (some "bitcoin")).2 (some "bitcoin")).2.count
      "bitcoin" = 1 :=
  addFavorite_twice_idempotent [] "bitcoin" (by decide) rfl

/-- C6: `removeFavorite` rejects an absent `asset_id` with the
validation-error outcome and no store call; for every non-empty id it
answers success with a store call, leaves no row for the id, and its
outcome does not depend on whether the id was present (the outcome on any
two tables is identical). -/
theorem removeFavorite_validation_and_blind_success
    (t1 t2 : List String) (aid : String) (hne : aid ≠ "") :
    removeFavorite t1 none = (.badRequest, t1, false) ∧
    (removeFavorite t1 (some aid)).1 = .removed ∧
    (removeFavorite t1 (some aid)).2.2 = true ∧
    aid ∉ (removeFavorite t1 (some aid)).2.1 ∧
    (removeFavorite t1 (some aid)).1 = (removeFavorite t2 (some aid)).1 := by
  refine ⟨rfl, ?_, ?_, ?_, ?_⟩ <;> simp [removeFavorite, hne]

/-- Concrete instantiation of C6: removing an id that was never present
still answers the success outcome. -/
theorem removeFavorite_validation_and_blind_success_witness :
    (removeFavorite ["bitcoin"] (some "doesnotexist")).1 =
      RemoveFavoriteResult.removed :=
  (removeFavorite_validation_and_blind_success ["bitcoin"] [] "doesnotexist"
    (by decide)).2.1

/-! ## Detail-transform link selection -/

/-- C7, counterexample: the claim says the `homepage` field is the first
non-empty entry of the provider's homepage array, but the transform takes
the plain first entry (`data.links?.homepage?.[0] || ''`): on the array
`["", "https://bitcoin.org"]` the code yields `""` while the first
non-empty entry is `"https://bitcoin.org"`. -/
theorem homepage_not_first_nonempty :
    homepageField (some ⟨some ["", "https://bitcoin.org"], none⟩) = "" ∧
    specFirstNonEmpty (some ["", "https://bitcoin.org"]) = "https://bitcoin.org" ∧
    homepageField (some ⟨some ["", "https://bitcoin.org"], none⟩) ≠
      specFirstNonEmpty (some ["", "https://bitcoin.org"]) := by
  refine ⟨by decide, by decide, by decide⟩

/-- The head of a filtration is the first entry satisfying the filter. -/
theorem filter_head?_eq_find? (p : String → Bool) (l : List String) :
    (l.filter p).head? = l.find? p := by
  induction l with
  | nil => rfl
  | cons a t ih =>
      cases hp : p a with
      | true => simp [List.filter_cons_of_pos hp, List.find?_cons_of_pos _ hp]
      | false =>
          rw [List.filter_cons_of_neg (by simp [hp]),
            List.find?_cons_of_neg _ (by simp [hp])]
          exact ih

/-- The first non-empty entry of a list is the head of its non-empty
filtration. -/
theorem jsStrOr_filter_head_eq_find (arr : List String) :
    jsStrOr (arr.filter (fun s => s != "")).head? "" =
      specFirstNonEmpty (some arr) := by
  rw [filter_head?_eq_find?]
  rcases h : arr.find? (fun s => s != "") with _ | s
  · simp [specFirstNonEmpty, h, jsStrOr]
  · by_cases hs : s = "" <;> simp [specFirstNonEmpty, h, jsStrOr, hs]

/-- C7, amended: in the asset-detail transform the `blockchain_site` field
is the first non-empty entry of the provider's `blockchain_site` array
(empty when the array is absent or has no non-empty entry), while the
`homepage` field is the plain first entry of the `homepage` array (empty
when the array is absent, empty, or its first entry is empty — later
non-empty entries are not consulted). -/
theorem detail_link_selection (L : Option ProviderLinks) :
    blockchainSiteField L =
      specFirstNonEmpty (L.bind (fun l => l.blockchain_site)) ∧
    homepageField L = ((L.bind (fun l => l.homepage)).bind List.head?).getD "" := by
  constructor
  · rcases L with _ | l
    · rfl
    · rcases hbs : l.blockchain_site with _ | arr
      · simp [blockchainSiteField, hbs, specFirstNonEmpty, jsStrOr]
      · simp only [blockchainSiteField, Option.some_bind, hbs, Option.map_some',
          Option.some_bind]
        exact jsStrOr_filter_head_eq_find arr
  · rcases L with _ | l
    · rfl
    · rcases hl : l.homepage with _ | arr
      · simp [homepageField, hl, jsStrOr]
      · rcases arr with _ | ⟨h, t⟩
        · simp [homepageField, hl, jsStrOr]
        · by_cases hh : h = "" <;> simp [homepageField, hl, jsStrOr, hh]

/-! ## Gainers/losers filter -/

/-- C8: the gainers/losers selector partitions the loaded assets at the
zero boundary — an asset with 24h change exactly 0 passes the gainers
filter and fails the losers filter, and membership in the gainers
filtration is equivalent to non-membership in the losers filtration. -/
theorem gainers_losers_partition (l : List CryptoAsset) (a : CryptoAsset)
    (ha : a ∈ l) :
    (a.price_change_percentage_24h = 0 →
      a ∈ applyFilter .gainers l ∧ a ∉ applyFilter .losers l) ∧
    (a ∈ applyFilter .gainers l ↔ a ∉ applyFilter .losers l) := by
  constructor
  · intro h0
    constructor
    · simp [applyFilter, List.mem_filter, ha, h0]
    · simp [applyFilter, List.mem_filter, h0]
  · simp [applyFilter, List.mem_filter, ha, not_lt]

/-- Concrete instantiation of C8: the zero-change asset passes the gainers
filter and fails the losers filter. -/
theorem gainers_losers_partition_witness :
    usdt ∈ applyFilter .gainers [btc, usdt, eth] ∧
    usdt ∉ applyFilter .losers [btc, usdt, eth] :=
  (gainers_losers_partition [btc, usdt, eth] usdt (by simp)).1 rfl

/-! ## Load-more failure paths -/

/-- C9: when a load-more fetch resolves as a failure — HTTP 429, any other
failed response or thrown error, or an ok response carrying an API error
body — the engine's state does not advance: the loaded assets, the page
cursor and the `hasMore` flag are unchanged and `loadingMore` is reset to
false by the `finally` block. -/
theorem loadMore_failure_frame (s : ListViewState) (o : FetchOutcome)
    (hl : s.loadingMore = false) (hm : s.hasMore = true)
    (hfail : o = .http429 ∨ o = .httpFailure ∨ o = .apiError) :
    (loadMoreAssets s o).assets = s.assets ∧
    (loadMoreAssets s o).page = s.page ∧
    (loadMoreAssets s o).hasMore = s.hasMore ∧
    (loadMoreAssets s o).loadingMore = false := by
  rcases hfail with rfl | rfl | rfl <;>
    simp [loadMoreAssets, hl, hm]

/-- A concrete engine state ready to load more. -/
def idleState : ListViewState := ⟨[btc], 1, true, false⟩

/-- Concrete instantiation of C9 on a 429 outcome. -/
theorem loadMore_failure_frame_witness :
    (loadMoreAssets idleState .http429).assets = idleState.assets ∧
    (loadMoreAssets idleState .http429).page = idleState.page ∧
    (loadMoreAssets idleState .http429).hasMore = idleState.hasMore ∧
    (loadMoreAssets idleState .http429).loadingMore = false :=
  loadMore_failure_frame idleState .http429 rfl rfl (Or.inl rfl)

/-! ## Cache-hit frame property -/

/-- C10: when the clamped key maps to a fresh cache entry, the request
leaves the cache object untouched — same list of keys, entries and
timestamps, no insertion and no eviction — and makes no provider call. -/
theorem cache_hit_frame
    (provider : Int → Int → Option (List CryptoAsset)) (now : Nat) (c : Cache)
    (pr qr : Option Int) (e : CacheEntry)
    (hget : mapGet c (cacheKey (clampPage pr) (clampPerPage qr)) = some e)
    (hvalid : isValidEntry now e = true) :
    (listAssetsGET provider now c pr qr).cache = c ∧
    (listAssetsGET provider now c pr qr).fetched = false := by
  constructor <;> simp [listAssetsGET, hget, hvalid]

/-- A concrete cache holding a fresh entry under the default key. -/
def hitCache : Cache := [("1-10", ⟨[btc], 5⟩)]

/-- Concrete instantiation of C10: a hit on `hitCache` at time 10 changes
nothing and calls no provider (here the provider would even fail). -/
theorem cache_hit_frame_witness :
    (listAssetsGET (fun _ _ => none) 10 hitCache none none).cache = hitCache ∧
    (listAssetsGET (fun _ _ => none) 10 hitCache none none).fetched = false :=
  cache_hit_frame (fun _ _ => none) 10 hitCache none none ⟨[btc], 5⟩
    (by decide) (by decide)

/-! ## Cache idempotence across requests -/

/-- The miss path always issues a provider call, successful or not. -/
theorem fetchAndStore_fetched (provider : Int → Int → Option (List CryptoAsset))
    (now : Nat) (c : Cache) (page perPage : Int) (key : String) :
    (fetchAndStore provider now c page perPage key).fetched = true := by
  unfold fetchAndStore
  split <;> rfl

/-- C2: starting from an empty cache, two requests for the same
(page, perPage) key within the freshness window issue exactly one provider
call — the second is served from the cache, returns the stored page, and
leaves the cache unchanged — and a third request made once the stored
entry's age reaches the freshness window issues a second provider call. -/
theorem cache_idempotence
    (provider : Int → Int → Option (List CryptoAsset)) (pr qr : Option Int)
    (t0 t1 t2 : Nat) (d : List CryptoAsset)
    (hprov : provider (clampPage pr) (clampPerPage qr) = some d)
    (h01 : t0 ≤ t1) (hfresh : t1 - t0 < cacheDuration)
    (hstale : cacheDuration ≤ t2 - t0) :
    (listAssetsGET provider t0 [] pr qr).fetched = true ∧
    (listAssetsGET provider t1
      (listAssetsGET provider t0 [] pr qr).cache pr qr).fetched = false ∧
    (listAssetsGET provider t1
      (listAssetsGET provider t0 [] pr qr).cache pr qr).response =
      (listAssetsGET provider t0 [] pr qr).response ∧
    (listAssetsGET provider t1
      (listAssetsGET provider t0 [] pr qr).cache pr qr).cache =
      (listAssetsGET provider t0 [] pr qr).cache ∧
    (listAssetsGET provider t2
      (listAssetsGET provider t1
        (listAssetsGET provider t0 [] pr qr).cache pr qr).cache pr qr).fetched =
      true := by
  have h1 : listAssetsGET provider t0 [] pr qr =
      ⟨some ⟨d, clampPage pr, clampPerPage qr, (d.length : Int) == clampPerPage qr⟩,
       [(cacheKey (clampPage pr) (clampPerPage qr), ⟨d, t0⟩)], true⟩ := by
    simp [listAssetsGET, fetchAndStore, mapGet, mapSet, hprov]
  have hv : isValidEntry t1 (⟨d, t0⟩ : CacheEntry) = true := by
    simp only [isValidEntry, decide_eq_true_eq]
    exact hfresh
  have hnv : isValidEntry t2 (⟨d, t0⟩ : CacheEntry) = false := by
    simp only [isValidEntry, decide_eq_false_iff_not]
    omega
  have h2 : listAssetsGET provider t1
      [(cacheKey (clampPage pr) (clampPerPage qr), ⟨d, t0⟩)] pr qr =
      ⟨some ⟨d, clampPage pr, clampPerPage qr, (d.length : Int) == clampPerPage qr⟩,
       [(cacheKey (clampPage pr) (clampPerPage qr), ⟨d, t0⟩)], false⟩ := by
    simp [listAssetsGET, mapGet, hv]
  refine ⟨?_, ?_, ?_, ?_, ?_⟩
  · simp [h1]
  · simp [h1, h2]
  · simp [h1, h2]
  · simp [h1, h2]
  · rw [h1]
    show (listAssetsGET provider t2
      (listAssetsGET provider t1
        [(cacheKey (clampPage pr) (clampPerPage qr), ⟨d, t0⟩)] pr qr).cache
      pr qr).fetched = true
    rw [h2]
    show (listAssetsGET provider t2
      [(cacheKey (clampPage pr) (clampPerPage qr), ⟨d, t0⟩)] pr qr).fetched = true
    simp [listAssetsGET, mapGet, hnv, fetchAndStore_fetched]

/-- A provider that always answers one asset. -/
def freshProvider : Int → Int → Option (List CryptoAsset) := fun _ _ => some [btc]

/-- Concrete instantiation of C2 at times 0, 1000 and 300000 (the 5-minute
window boundary): first call fetches, second is a pure cache hit. -/
theorem cache_idempotence_witness :
    (listAssetsGET freshProvider 0 [] none none).fetched = true ∧
    (listAssetsGET freshProvider 1000
      (listAssetsGET freshProvider 0 [] none none).cache none none).fetched =
      false := by
  have h := cache_idempotence freshProvider none none 0 1000 300000 [btc] rfl
    (by decide) (by decide) (by decide)
  exact ⟨h.1, h.2.1⟩

/-! ## Cache size bound -/

/-- `Map.set` grows the map by at most one entry. -/
theorem mapSet_length_le (c : Cache) (k : String) (e : CacheEntry) :
    (mapSet c k e).length ≤ c.length + 1 := by
  unfold mapSet
  split
  · simp
  · simp

/-- Deleting the first key of a non-empty map drops at least its head. -/
theorem evict_first_length (p : String × CacheEntry) (t : Cache) :
    (mapDelete (p :: t) p.1).length ≤ t.length := by
  unfold mapDelete
  rw [List.filter_cons_of_neg (by simp)]
  exact List.length_filter_le _ t

/-- The miss path keeps the cache within 10 entries: the insertion adds at
most one entry, and when the size then exceeds 10 the oldest-inserted key
is deleted. -/
theorem fetchAndStore_cache_bound
    (provider : Int → Int → Option (List CryptoAsset)) (now : Nat) (c : Cache)
    (page perPage : Int) (key : String) (h : c.length ≤ 10) :
    (fetchAndStore provider now c page perPage key).cache.length ≤ 10 := by
  unfold fetchAndStore
  split
  · exact h
  · rename_i data hd
    have hc1 : (mapSet c key ⟨data, now⟩).length ≤ c.length + 1 :=
      mapSet_length_le c key ⟨data, now⟩
    dsimp only
    split
    · rename_i hgt
      cases hc : mapSet c key ⟨data, now⟩ with
      | nil => simp [firstKey, mapDelete]
      | cons p t =>
          rw [hc] at hc1
          have h2 : (mapDelete (p :: t) p.1).length ≤ t.length :=
            evict_first_length p t
          show (mapDelete (p :: t) p.1).length ≤ 10
          simp only [List.length_cons] at hc1
          omega
    · rename_i hle
      omega

/-- One completed `GET /api/assets` request preserves the 10-entry bound on
the assets cache. -/
theorem listAssetsGET_cache_bound
    (provider : Int → Int → Option (List CryptoAsset)) (now : Nat) (c : Cache)
    (pr qr : Option Int) (h : c.length ≤ 10) :
    (listAssetsGET provider now c pr qr).cache.length ≤ 10 := by
  simp only [listAssetsGET]
  split
  · split
    · exact h
    · exact fetchAndStore_cache_bound provider now c _ _ _ h
  · exact fetchAndStore_cache_bound provider now c _ _ _ h

/-- C4: starting from an empty cache, after every completed sequence of
`GET /api/assets` requests the assets cache holds at most 10 entries. -/
theorem assetsCache_size_bounded
    (provider : Int → Int → Option (List CryptoAsset))
    (reqs : List AssetsRequest) :
    (runRequests provider reqs []).length ≤ 10 := by
  suffices h : ∀ (rs : List AssetsRequest) (c : Cache), c.length ≤ 10 →
      (runRequests provider rs c).length ≤ 10 by
    exact h reqs [] (by simp)
  intro rs
  induction rs with
  | nil => intro c hc; exact hc
  | cons r rest ih =>
      intro c hc
      exact ih _ (listAssetsGET_cache_bound provider r.now c r.pageRaw r.perPageRaw hc)

end CryptoFront
